import Mathlib

/-!
# esp32-web-ledblink: the HTTP LED switch of `main/main.c`

A shallow embedding of `event_handler`, `http_server_netconn_serve` and
`http_server`, followed by the properties proved about them.

Conventions of the embedding.

* A byte (`char`) is a `Nat`; character constants are written `'G'.toNat`.
* `err_t` and `esp_err_t` are `Int`, with `ERR_OK = 0` and `ESP_OK = 0`.
* A connection (`struct netconn *`) is identified by a `Nat`.
* What `netconn_recv` followed by `netbuf_data` hands to the code is a
  `Netbuf`: the received bytes (`buflen` is their number) and the memory that
  follows them, which `buf[i]` reaches as soon as `i >= buflen`.
* Calls into lwIP and the GPIO driver are recorded, in program order, as a
  list of `Event`; the GPIO output latch is state passed explicitly.
* `printf` and `fflush` (console logging) are left out, and with them the
  walk of `printf("buffer = %s", buf)` over `buf` up to a NUL byte.
* `GPIO_LED` (`CONFIG_BLINK_GPIO`, set by menuconfig) is a parameter.
-/

namespace LedBlink

/-! ## Constants -/

/-- The lwIP success code `ERR_OK`. -/
def ERR_OK : Int := 0

/-- The ESP-IDF success code `ESP_OK`. -/
def ESP_OK : Int := 0

/-- The lwIP flag `NETCONN_NOCOPY`. -/
def NETCONN_NOCOPY : Nat := 0

/-- The text of the string literal initialising `http_index_hml` (main.c:35-50). -/
def http_index_text : List Char :=
  "HTTP/1.1 200 OK\r\n".toList ++
  "Content-type: text/html\r\n\r\n".toList ++
  "<!DOCTYPE html>\n".toList ++
  "<html>\n".toList ++
  "<head>\n".toList ++
  "<meta name='viewport' content='initial-scale=1.5'>\n".toList ++
  "</head>\n".toList ++
  "<body>\n".toList ++
  "<form method='get'>\n".toList ++
  "ESP-WROOM-32<br>\n".toList ++
  "Wi-Fi  LED  Switch<br><br>\n".toList ++
  "<input type='submit' name=0 value='ON' style='background-color:#88ff88; color:red;'>\n".toList ++
  "<input type='submit' name=1 value='OFF' style='background-color:black; color:white;'>\n".toList ++
  "</form>\n".toList ++
  "</body>\n".toList ++
  "</html>\n".toList

/-- The array `http_index_hml`: the bytes of the literal and the terminating NUL. -/
def http_index_hml : List Nat :=
  http_index_text.map Char.toNat ++ [0]

/-- The value of `sizeof(http_index_hml)`. -/
def sizeof_http_index_hml : Nat := http_index_hml.length

/-! ## Received data and device state -/

/-- The data of a netbuf as `netbuf_data` exposes it: `data` are the received
bytes, `past i` is the byte found `i` places after their end. -/
structure Netbuf where
  data : List Nat
  past : Nat → Nat

/-- The length `buflen` that `netbuf_data` reports. -/
def Netbuf.buflen (nb : Netbuf) : Nat := nb.data.length

/-- The value of the C expression `buf[i]`. -/
def Netbuf.rd (nb : Netbuf) (i : Nat) : Nat :=
  if h : i < nb.data.length then nb.data.get ⟨i, h⟩ else nb.past (i - nb.data.length)

/-- The outcome of `netconn_recv`: the error code and the buffer handed over. -/
structure RecvResult where
  err : Int
  inbuf : Netbuf

/-- The GPIO output latch: the level driven on each pin. -/
abbrev Gpio := Nat → Nat

/-- The ESP-IDF driver call `gpio_set_level(pin, level)`, by its documented
effect: `pin` is driven low when `level` is 0 and high otherwise, the other
pins keep their level. -/
def gpio_set_level (pin level : Nat) (g : Gpio) : Gpio :=
  fun p => if p = pin then (if level = 0 then 0 else 1) else g p

/-- The calls the server makes into lwIP and the GPIO driver. -/
inductive Event where
  | netconn_new
  | netconn_bind (conn port : Nat)
  | netconn_listen (conn : Nat)
  | netconn_accept (conn : Nat) (err : Int)
  | netconn_recv (conn : Nat) (err : Int)
  | netbuf_data
  | netconn_write (conn : Nat) (bytes : List Nat) (flags : Nat)
  | gpio_set_level (pin level : Nat)
  | netconn_close (conn : Nat)
  | netbuf_delete
  | netconn_delete (conn : Nat)
  deriving DecidableEq, Repr

/-! ## Request matching -/

/-- A chain `buf[i0]==c0 && buf[i1]==c1 && ...` evaluated left to right with
short-circuit: the truth value and the indices of `buf` actually read. -/
def matchBytes (nb : Netbuf) : List (Nat × Nat) → Bool × List Nat
  | [] => (true, [])
  | (i, c) :: rest =>
    if nb.rd i = c then
      ((matchBytes nb rest).1, i :: (matchBytes nb rest).2)
    else
      (false, [i])

/-- The comparisons of the GET test (main.c:132). -/
def getPattern : List (Nat × Nat) :=
  [(0, 'G'.toNat), (1, 'E'.toNat), (2, 'T'.toNat), (3, ' '.toNat), (4, '/'.toNat)]

/-- The comparisons of the first LED test (main.c:140). -/
def offPattern : List (Nat × Nat) :=
  [(5, '?'.toNat), (6, '1'.toNat), (7, '='.toNat), (8, 'O'.toNat), (9, 'F'.toNat)]

/-- The comparisons of the second LED test (main.c:143). -/
def onPattern : List (Nat × Nat) :=
  [(5, '?'.toNat), (6, '0'.toNat), (7, '='.toNat), (8, 'O'.toNat), (9, 'N'.toNat)]

/-- The result of one call of `http_server_netconn_serve`. -/
structure ServeOut where
  events : List Event
  reads : List Nat
  gpio : Gpio

/-- The function `http_server_netconn_serve` (main.c:112-155), statement by
statement: the receive, the guarded matching with its write and GPIO call,
then the close and the release of the buffer, which every path reaches. -/
def http_server_netconn_serve (GPIO_LED : Nat) (conn : Nat) (rx : RecvResult) (g : Gpio) :
    ServeOut :=
  let s0 : ServeOut := { events := [Event.netconn_recv conn rx.err], reads := [], gpio := g }
  let s1 : ServeOut :=
    if rx.err = ERR_OK then
      let buf := rx.inbuf
      let isGet := if 9 ≤ buf.buflen then matchBytes buf getPattern else (false, [])
      let s : ServeOut :=
        { s0 with events := s0.events ++ [Event.netbuf_data], reads := isGet.2 }
      if isGet.1 then
        let s : ServeOut :=
          { s with events := s.events ++ [Event.netconn_write conn
              (http_index_hml.take (sizeof_http_index_hml - 1)) NETCONN_NOCOPY] }
        let isOff := matchBytes buf offPattern
        if isOff.1 then
          { events := s.events ++ [Event.gpio_set_level GPIO_LED 0]
            reads := s.reads ++ isOff.2
            gpio := gpio_set_level GPIO_LED 0 s.gpio }
        else
          let isOn := matchBytes buf onPattern
          if isOn.1 then
            { events := s.events ++ [Event.gpio_set_level GPIO_LED 1]
              reads := s.reads ++ isOff.2 ++ isOn.2
              gpio := gpio_set_level GPIO_LED 1 s.gpio }
          else
            { s with reads := s.reads ++ isOff.2 ++ isOn.2 }
      else
        s
    else
      s0
  { s1 with events := s1.events ++ [Event.netconn_close conn, Event.netbuf_delete] }

/-! ## Vocabulary of the statements -/

/-- The bytes of a text, as a request buffer. -/
def bytes (s : String) : List Nat := s.toList.map Char.toNat

/-- A successful receive of `data`, followed in memory by `past`. -/
def received (data : List Nat) (past : Nat → Nat) : RecvResult :=
  { err := ERR_OK, inbuf := { data := data, past := past } }

/-- The response bytes a serve passed to `netconn_write`, in order. -/
def written : List Event → List Nat
  | [] => []
  | Event.netconn_write _ bs _ :: rest => bs ++ written rest
  | _ :: rest => written rest

/-- The payloads of the `netconn_write` calls among the events, in order. -/
def writes : List Event → List (List Nat)
  | [] => []
  | Event.netconn_write _ bs _ :: rest => bs :: writes rest
  | _ :: rest => writes rest

/-- The number of places at which `pat` occurs in `s`. -/
def occurrences (pat s : List Nat) : Nat :=
  (s.tails.filter (fun t => pat.isPrefixOf t)).length

/-- Whether an event is a `netconn_recv` call. -/
def isRecv : Event → Bool
  | Event.netconn_recv _ _ => true
  | _ => false

/-- Whether an event is a `netconn_close` call. -/
def isClose : Event → Bool
  | Event.netconn_close _ => true
  | _ => false

/-! ## The accept loop -/

/-- A client connection as `netconn_accept` hands it over: its identity and
what `netconn_recv` on it is going to return. -/
structure Netconn where
  id : Nat
  rx : RecvResult

/-- One return of `netconn_accept`: the error code and the connection stored
in `newconn`. -/
structure AcceptResult where
  err : Int
  newconn : Netconn

/-- The result of running the accept loop over a sequence of accept results:
`exited` tells whether the `do ... while` was left; when it is false the
task is blocked in `netconn_accept`, waiting for the next client. -/
structure LoopOut where
  events : List Event
  gpio : Gpio
  exited : Bool

/-- The `do { ... } while (err == ERR_OK)` of `http_server` (main.c:168-174),
fed with the successive results of `netconn_accept`. -/
def http_server_loop (GPIO_LED conn : Nat) : List AcceptResult → Gpio → LoopOut
  | [], g => { events := [], gpio := g, exited := false }
  | a :: rest, g =>
    if a.err = ERR_OK then
      let s := http_server_netconn_serve GPIO_LED a.newconn.id a.newconn.rx g
      let r := http_server_loop GPIO_LED conn rest s.gpio
      { events := Event.netconn_accept conn a.err :: s.events ++
                  Event.netconn_delete a.newconn.id :: r.events
        gpio := r.gpio
        exited := r.exited }
    else
      { events := [Event.netconn_accept conn a.err], gpio := g, exited := true }

/-- The task `http_server` (main.c:161-177); `conn` is the connection that
`netconn_new` returns. -/
def http_server (GPIO_LED conn : Nat) (accepts : List AcceptResult) (g : Gpio) : LoopOut :=
  let r := http_server_loop GPIO_LED conn accepts g
  { events := [Event.netconn_new, Event.netconn_bind conn 80, Event.netconn_listen conn] ++
              r.events ++
              (if r.exited then [Event.netconn_close conn, Event.netconn_delete conn] else [])
    gpio := r.gpio
    exited := r.exited }

/-! ## The Wi-Fi event handler -/

/-- The event identifiers `event_handler` distinguishes; every other value of
`system_event_id_t` is `other`. -/
inductive system_event_id_t where
  | SYSTEM_EVENT_STA_START
  | SYSTEM_EVENT_STA_GOT_IP
  | SYSTEM_EVENT_STA_DISCONNECTED
  | other (id : Nat)
  deriving DecidableEq, Repr

/-- The calls `event_handler` makes into the Wi-Fi driver and FreeRTOS. -/
inductive WifiCall where
  | esp_wifi_connect
  | xEventGroupSetBits (bits : Nat)
  | xEventGroupClearBits (bits : Nat)
  deriving DecidableEq, Repr

/-- The constant `CONNECTED_BIT = BIT0`. -/
def CONNECTED_BIT : Nat := 1

/-- The state `event_handler` works on: the bits of `wifi_event_group`
(an `EventBits_t`, 32 bits wide) and the calls made so far, oldest first. -/
structure WifiState where
  wifi_event_group : Nat
  calls : List WifiCall

/-- FreeRTOS `xEventGroupSetBits`, by its effect on the bits of the group:
`uxEventBits |= uxBitsToSet`. -/
def xEventGroupSetBits (group bits : Nat) : Nat := group ||| bits

/-- FreeRTOS `xEventGroupClearBits`, by its effect on the bits of the group:
`uxEventBits &= ~uxBitsToClear`, on 32 bits. -/
def xEventGroupClearBits (group bits : Nat) : Nat := group &&& (0xFFFFFFFF ^^^ bits)

/-- The function `event_handler` (main.c:57-82): the value returned and the
state it leaves. -/
def event_handler (event_id : system_event_id_t) (st : WifiState) : Int × WifiState :=
  match event_id with
  | .SYSTEM_EVENT_STA_START =>
    (ESP_OK, { st with calls := st.calls ++ [WifiCall.esp_wifi_connect] })
  | .SYSTEM_EVENT_STA_GOT_IP =>
    (ESP_OK, { wifi_event_group := xEventGroupSetBits st.wifi_event_group CONNECTED_BIT
               calls := st.calls ++ [WifiCall.xEventGroupSetBits CONNECTED_BIT] })
  | .SYSTEM_EVENT_STA_DISCONNECTED =>
    (ESP_OK, { wifi_event_group := xEventGroupClearBits st.wifi_event_group CONNECTED_BIT
               calls := st.calls ++ [WifiCall.esp_wifi_connect,
                                     WifiCall.xEventGroupClearBits CONNECTED_BIT] })
  | .other _ => (ESP_OK, st)

/-- The event loop delivering a sequence of events, oldest first, to
`event_handler`. -/
def deliver (events : List system_event_id_t) (st : WifiState) : WifiState :=
  events.foldl (fun s e => (event_handler e s).2) st

/-- The connected flag: `CONNECTED_BIT` is set in `wifi_event_group`. -/
def connected (st : WifiState) : Bool := st.wifi_event_group &&& CONNECTED_BIT != 0

/-- The state after `initialise_wifi` created the event group: no bit set. -/
def wifi_init : WifiState := { wifi_event_group := 0, calls := [] }

/-- Whether an event changes the link state: `SYSTEM_EVENT_STA_GOT_IP` or
`SYSTEM_EVENT_STA_DISCONNECTED`. -/
def isLinkEvent : system_event_id_t → Bool
  | .SYSTEM_EVENT_STA_GOT_IP => true
  | .SYSTEM_EVENT_STA_DISCONNECTED => true
  | _ => false

/-- The most recent link event of a sequence given oldest first. -/
def lastLinkEvent (events : List system_event_id_t) : Option system_event_id_t :=
  events.reverse.find? isLinkEvent

/-! ## Facts about the matching -/

theorem bytes_get : bytes "GET /" = [71, 69, 84, 32, 47] := by decide

theorem getPattern_eq : getPattern = [(0, 71), (1, 69), (2, 84), (3, 32), (4, 47)] := by decide

theorem offPattern_eq : offPattern = [(5, 63), (6, 49), (7, 61), (8, 79), (9, 70)] := by decide

theorem onPattern_eq : onPattern = [(5, 63), (6, 48), (7, 61), (8, 79), (9, 78)] := by decide

/-- A list of at least nine elements, taken apart. -/
theorem exists_nine {l : List Nat} (h : 9 ≤ l.length) :
    ∃ b0 b1 b2 b3 b4 b5 b6 b7 b8 rest,
      l = b0 :: b1 :: b2 :: b3 :: b4 :: b5 :: b6 :: b7 :: b8 :: rest := by
  match l, h with
  | b0 :: b1 :: b2 :: b3 :: b4 :: b5 :: b6 :: b7 :: b8 :: rest, _ =>
    exact ⟨b0, b1, b2, b3, b4, b5, b6, b7, b8, rest, rfl⟩

/-- A chain of comparisons is true exactly when every comparison holds. -/
theorem matchBytes_true_iff (nb : Netbuf) (pat : List (Nat × Nat)) :
    (matchBytes nb pat).1 = true ↔ ∀ ic ∈ pat, nb.rd ic.1 = ic.2 := by
  induction pat with
  | nil => simp [matchBytes]
  | cons ic rest ih =>
    obtain ⟨i, c⟩ := ic
    by_cases h : nb.rd i = c
    · simp [matchBytes, h, ih]
    · simp [matchBytes, h]

/-- The indices a chain reads are an initial run of the indices it names. -/
theorem matchBytes_reads_initial (nb : Netbuf) (pat : List (Nat × Nat)) :
    (matchBytes nb pat).2 <+: pat.map Prod.fst := by
  induction pat with
  | nil => simp [matchBytes]
  | cons ic rest ih =>
    obtain ⟨i, c⟩ := ic
    by_cases h : nb.rd i = c
    · simpa [matchBytes, h] using ih
    · simp [matchBytes, h]

/-- The GET test on a buffer of at least nine bytes is the prefix test. -/
theorem matchBytes_get_iff (data : List Nat) (past : Nat → Nat) (h : 9 ≤ data.length) :
    (matchBytes { data := data, past := past } getPattern).1 = true ↔ bytes "GET /" <+: data := by
  obtain ⟨b0, b1, b2, b3, b4, b5, b6, b7, b8, rest, rfl⟩ := exists_nine h
  rw [matchBytes_true_iff, getPattern_eq, bytes_get]
  simp [Netbuf.rd]
  omega

/-- The page sent: `http_index_hml` without its terminating NUL. -/
theorem page_eq : http_index_hml.take (sizeof_http_index_hml - 1) = http_index_text.map Char.toNat := by
  simp [sizeof_http_index_hml, http_index_hml]

theorem page_ne_nil : http_index_hml.take (sizeof_http_index_hml - 1) ≠ [] := by
  rw [page_eq]; decide

/-! ## Properties of `http_server_netconn_serve` -/

/-- C1: a received buffer is rejected (no response byte is written and the
GPIO output is left as it was) exactly when it is shorter than 9 bytes or its
first five bytes are not `GET /`. -/
theorem serve_rejects_iff (GPIO_LED conn : Nat) (data : List Nat) (past : Nat → Nat)
    (g : Gpio) :
    (written (http_server_netconn_serve GPIO_LED conn (received data past) g).events = [] ∧
      (http_server_netconn_serve GPIO_LED conn (received data past) g).gpio = g) ↔
    (data.length < 9 ∨ ¬ bytes "GET /" <+: data) := by
  by_cases h9 : 9 ≤ data.length
  · have hget := matchBytes_get_iff data past h9
    by_cases hp : bytes "GET /" <+: data
    · have hm := hget.mpr hp
      have hne := page_ne_nil
      simp only [http_server_netconn_serve, received, Netbuf.buflen, h9, hm, if_true]
      split_ifs <;> simp [written, hp, hne] <;> omega
    · have hm : ¬ (matchBytes { data := data, past := past } getPattern).1 = true :=
        fun h => hp (hget.mp h)
      simp [http_server_netconn_serve, received, Netbuf.buflen, h9, hm, written, hp]
  · simp [http_server_netconn_serve, received, Netbuf.buflen, h9, written]
    omega

/-- C2: a buffer beginning with `GET /?1=OFF` gets the fixed page and the LED
output driven to 0; a buffer beginning with `GET /?0=ON` gets the fixed page
and the LED output driven to 1; whatever the bytes that follow, the memory
behind the buffer and the previous state of the outputs. -/
theorem serve_led_query (GPIO_LED conn : Nat) (rest : List Nat) (past : Nat → Nat)
    (g : Gpio) :
    ((http_server_netconn_serve GPIO_LED conn
        (received (bytes "GET /?1=OFF" ++ rest) past) g).events =
        [Event.netconn_recv conn ERR_OK, Event.netbuf_data,
         Event.netconn_write conn (http_index_hml.take (sizeof_http_index_hml - 1))
           NETCONN_NOCOPY,
         Event.gpio_set_level GPIO_LED 0, Event.netconn_close conn, Event.netbuf_delete] ∧
      (http_server_netconn_serve GPIO_LED conn
        (received (bytes "GET /?1=OFF" ++ rest) past) g).gpio = gpio_set_level GPIO_LED 0 g ∧
      (http_server_netconn_serve GPIO_LED conn
        (received (bytes "GET /?1=OFF" ++ rest) past) g).gpio GPIO_LED = 0) ∧
    ((http_server_netconn_serve GPIO_LED conn
        (received (bytes "GET /?0=ON" ++ rest) past) g).events =
        [Event.netconn_recv conn ERR_OK, Event.netbuf_data,
         Event.netconn_write conn (http_index_hml.take (sizeof_http_index_hml - 1))
           NETCONN_NOCOPY,
         Event.gpio_set_level GPIO_LED 1, Event.netconn_close conn, Event.netbuf_delete] ∧
      (http_server_netconn_serve GPIO_LED conn
        (received (bytes "GET /?0=ON" ++ rest) past) g).gpio = gpio_set_level GPIO_LED 1 g ∧
      (http_server_netconn_serve GPIO_LED conn
        (received (bytes "GET /?0=ON" ++ rest) past) g).gpio GPIO_LED = 1) := by
  have hoff : bytes "GET /?1=OFF" = [71, 69, 84, 32, 47, 63, 49, 61, 79, 70, 70] := by decide
  have hon : bytes "GET /?0=ON" = [71, 69, 84, 32, 47, 63, 48, 61, 79, 78] := by decide
  rw [hoff, hon]
  simp only [List.cons_append, List.nil_append]
  constructor
  · have h1 : (matchBytes ⟨71 :: 69 :: 84 :: 32 :: 47 :: 63 :: 49 :: 61 :: 79 :: 70 :: 70 :: rest, past⟩
        getPattern).1 = true := by
      rw [matchBytes_true_iff, getPattern_eq]; simp [Netbuf.rd]
    have h2 : (matchBytes ⟨71 :: 69 :: 84 :: 32 :: 47 :: 63 :: 49 :: 61 :: 79 :: 70 :: 70 :: rest, past⟩
        offPattern).1 = true := by
      rw [matchBytes_true_iff, offPattern_eq]; simp [Netbuf.rd]
    simp [http_server_netconn_serve, received, Netbuf.buflen, h1, h2, gpio_set_level]
  · have h1 : (matchBytes ⟨71 :: 69 :: 84 :: 32 :: 47 :: 63 :: 48 :: 61 :: 79 :: 78 :: rest, past⟩
        getPattern).1 = true := by
      rw [matchBytes_true_iff, getPattern_eq]; simp [Netbuf.rd]
    have h2 : ¬ (matchBytes ⟨71 :: 69 :: 84 :: 32 :: 47 :: 63 :: 48 :: 61 :: 79 :: 78 :: rest, past⟩
        offPattern).1 = true := by
      rw [matchBytes_true_iff, offPattern_eq]; simp [Netbuf.rd]
    have h3 : (matchBytes ⟨71 :: 69 :: 84 :: 32 :: 47 :: 63 :: 48 :: 61 :: 79 :: 78 :: rest, past⟩
        onPattern).1 = true := by
      rw [matchBytes_true_iff, onPattern_eq]; simp [Netbuf.rd]
    simp [http_server_netconn_serve, received, Netbuf.buflen, h1, h2, h3, gpio_set_level]

/-- C3: a buffer of at least 9 bytes that begins with `GET /` and whose next
byte is not `?` gets the fixed page, no GPIO call is made and the outputs stay
as they were. -/
theorem serve_no_query (GPIO_LED conn : Nat) (data : List Nat) (past : Nat → Nat)
    (g : Gpio) (h9 : 9 ≤ data.length) (hp : bytes "GET /" <+: data)
    (hq : data[5]? ≠ some '?'.toNat) :
    (http_server_netconn_serve GPIO_LED conn (received data past) g).events =
        [Event.netconn_recv conn ERR_OK, Event.netbuf_data,
         Event.netconn_write conn (http_index_hml.take (sizeof_http_index_hml - 1))
           NETCONN_NOCOPY,
         Event.netconn_close conn, Event.netbuf_delete] ∧
      (http_server_netconn_serve GPIO_LED conn (received data past) g).gpio = g := by
  have h1 := (matchBytes_get_iff data past h9).mpr hp
  obtain ⟨b0, b1, b2, b3, b4, b5, b6, b7, b8, rest, rfl⟩ := exists_nine h9
  have hb : ¬ b5 = 63 := by simpa using hq
  have h2 : ¬ (matchBytes ⟨b0 :: b1 :: b2 :: b3 :: b4 :: b5 :: b6 :: b7 :: b8 :: rest, past⟩
      offPattern).1 = true := by
    rw [matchBytes_true_iff, offPattern_eq]; simp [Netbuf.rd, hb]
  have h3 : ¬ (matchBytes ⟨b0 :: b1 :: b2 :: b3 :: b4 :: b5 :: b6 :: b7 :: b8 :: rest, past⟩
      onPattern).1 = true := by
    rw [matchBytes_true_iff, onPattern_eq]; simp [Netbuf.rd, hb]
  simp [http_server_netconn_serve, received, Netbuf.buflen, h1, h2, h3]

/-- Witness for C3: the request `GET / HTTP/1.1`, LED pin 2 driven high before. -/
theorem serve_no_query_witness :
    (http_server_netconn_serve 2 7 (received (bytes "GET / HTTP/1.1") (fun _ => 0))
        (fun _ => 1)).events =
        [Event.netconn_recv 7 ERR_OK, Event.netbuf_data,
         Event.netconn_write 7 (http_index_hml.take (sizeof_http_index_hml - 1))
           NETCONN_NOCOPY,
         Event.netconn_close 7, Event.netbuf_delete] ∧
      (http_server_netconn_serve 2 7 (received (bytes "GET / HTTP/1.1") (fun _ => 0))
        (fun _ => 1)).gpio = (fun _ => 1) :=
  serve_no_query 2 7 (bytes "GET / HTTP/1.1") (fun _ => 0) (fun _ => 1)
    (by decide) (by decide) (by decide)

/-- C4, as stated, fails: `GET /?1=OFX HTTP/1.1` is accepted, the bytes after
`GET /` are neither `?0=ON` nor `?1=OFF`, and yet the LED output, high before,
is driven low, because the test at main.c:140 compares five bytes only. -/
theorem serve_unrecognized_query_counterexample :
    ¬ ∀ (GPIO_LED conn : Nat) (data : List Nat) (past : Nat → Nat) (g : Gpio),
        9 ≤ data.length → bytes "GET /" <+: data →
        ¬ bytes "?0=ON" <+: data.drop 5 → ¬ bytes "?1=OFF" <+: data.drop 5 →
        (http_server_netconn_serve GPIO_LED conn (received data past) g).gpio GPIO_LED =
          g GPIO_LED := by
  intro h
  have h1 := h 2 7 (bytes "GET /?1=OFX HTTP/1.1") (fun _ => 0) (fun _ => 1)
    (by decide) (by decide) (by decide) (by decide)
  revert h1
  decide

/-- C4, amended: for an accepted buffer whose received bytes at offsets 5 to 9
(only 5 to 8 when the buffer has 9 bytes) are an initial segment neither of
`?1=OF` nor of `?0=ON`, the page is sent, no GPIO call is made and the outputs
stay as they were. -/
theorem serve_unrecognized_query (GPIO_LED conn : Nat) (data : List Nat) (past : Nat → Nat)
    (g : Gpio) (h9 : 9 ≤ data.length) (hp : bytes "GET /" <+: data)
    (hoff : ¬ (data.drop 5).take 5 <+: bytes "?1=OF")
    (hon : ¬ (data.drop 5).take 5 <+: bytes "?0=ON") :
    (http_server_netconn_serve GPIO_LED conn (received data past) g).events =
        [Event.netconn_recv conn ERR_OK, Event.netbuf_data,
         Event.netconn_write conn (http_index_hml.take (sizeof_http_index_hml - 1))
           NETCONN_NOCOPY,
         Event.netconn_close conn, Event.netbuf_delete] ∧
      (http_server_netconn_serve GPIO_LED conn (received data past) g).gpio = g := by
  have h1 := (matchBytes_get_iff data past h9).mpr hp
  have e1 : bytes "?1=OF" = [63, 49, 61, 79, 70] := by decide
  have e2 : bytes "?0=ON" = [63, 48, 61, 79, 78] := by decide
  rw [e1] at hoff
  rw [e2] at hon
  obtain ⟨b0, b1, b2, b3, b4, b5, b6, b7, b8, rest, rfl⟩ := exists_nine h9
  have h2 : ¬ (matchBytes ⟨b0 :: b1 :: b2 :: b3 :: b4 :: b5 :: b6 :: b7 :: b8 :: rest, past⟩
      offPattern).1 = true := by
    rw [matchBytes_true_iff, offPattern_eq]
    cases rest with
    | nil =>
      simp [List.prefix_iff_eq_take] at hoff
      simp [Netbuf.rd]
      omega
    | cons b9 rest =>
      simp at hoff
      simp [Netbuf.rd]
      omega
  have h3 : ¬ (matchBytes ⟨b0 :: b1 :: b2 :: b3 :: b4 :: b5 :: b6 :: b7 :: b8 :: rest, past⟩
      onPattern).1 = true := by
    rw [matchBytes_true_iff, onPattern_eq]
    cases rest with
    | nil =>
      simp [List.prefix_iff_eq_take] at hon
      simp [Netbuf.rd]
      omega
    | cons b9 rest =>
      simp at hon
      simp [Netbuf.rd]
      omega
  simp [http_server_netconn_serve, received, Netbuf.buflen, h1, h2, h3]

/-- Witness for C4 amended: `GET /?1=OX HTTP/1.1`, LED pin 2 driven high before. -/
theorem serve_unrecognized_query_witness :
    (http_server_netconn_serve 2 7 (received (bytes "GET /?1=OX HTTP/1.1") (fun _ => 0))
        (fun _ => 1)).events =
        [Event.netconn_recv 7 ERR_OK, Event.netbuf_data,
         Event.netconn_write 7 (http_index_hml.take (sizeof_http_index_hml - 1))
           NETCONN_NOCOPY,
         Event.netconn_close 7, Event.netbuf_delete] ∧
      (http_server_netconn_serve 2 7 (received (bytes "GET /?1=OX HTTP/1.1") (fun _ => 0))
        (fun _ => 1)).gpio = (fun _ => 1) :=
  serve_unrecognized_query 2 7 (bytes "GET /?1=OX HTTP/1.1") (fun _ => 0) (fun _ => 1)
    (by decide) (by decide) (by decide) (by decide)

set_option maxRecDepth 100000 in
/-- C5: for every accepted buffer there is exactly one write, of
`http_index_hml` without its terminating NUL (`sizeof - 1` bytes, none of them
NUL), a constant that depends neither on the request nor on the outputs; it
begins with the status line and the content type, and it holds exactly two
submit controls, `name=0` with value `ON` and `name=1` with value `OFF`. -/
theorem serve_writes_fixed_page (GPIO_LED conn : Nat) (data : List Nat) (past : Nat → Nat)
    (g : Gpio) (h9 : 9 ≤ data.length) (hp : bytes "GET /" <+: data) :
    writes (http_server_netconn_serve GPIO_LED conn (received data past) g).events =
        [http_index_hml.take (sizeof_http_index_hml - 1)] ∧
      http_index_hml = http_index_hml.take (sizeof_http_index_hml - 1) ++ [0] ∧
      (http_index_hml.take (sizeof_http_index_hml - 1)).length = sizeof_http_index_hml - 1 ∧
      0 ∉ http_index_hml.take (sizeof_http_index_hml - 1) ∧
      bytes "HTTP/1.1 200 OK\r\nContent-type: text/html\r\n\r\n" <+:
        http_index_hml.take (sizeof_http_index_hml - 1) ∧
      occurrences (bytes "<input type='submit' ")
        (http_index_hml.take (sizeof_http_index_hml - 1)) = 2 ∧
      occurrences (bytes "<input type='submit' name=0 value='ON' ")
        (http_index_hml.take (sizeof_http_index_hml - 1)) = 1 ∧
      occurrences (bytes "<input type='submit' name=1 value='OFF' ")
        (http_index_hml.take (sizeof_http_index_hml - 1)) = 1 := by
  have h1 := (matchBytes_get_iff data past h9).mpr hp
  refine ⟨?_, ?_, ?_, ?_, ?_, ?_, ?_, ?_⟩
  · simp only [http_server_netconn_serve, received, Netbuf.buflen, h9, h1, if_true]
    split_ifs <;> simp [writes]
  · rw [page_eq]; rfl
  · rw [page_eq]; decide
  · rw [page_eq]; decide
  · rw [page_eq]; decide
  · rw [page_eq]; decide
  · rw [page_eq]; decide
  · rw [page_eq]; decide

/-- Witness for C5: the request `GET /?0=ON HTTP/1.1`. -/
theorem serve_writes_fixed_page_witness :
    writes (http_server_netconn_serve 2 7 (received (bytes "GET /?0=ON HTTP/1.1") (fun _ => 0))
        (fun _ => 0)).events = [http_index_hml.take (sizeof_http_index_hml - 1)] :=
  (serve_writes_fixed_page 2 7 (bytes "GET /?0=ON HTTP/1.1") (fun _ => 0) (fun _ => 0)
    (by decide) (by decide)).1

/-- The five call lists a serve can produce. -/
theorem serve_events_cases (GPIO_LED conn : Nat) (rx : RecvResult) (g : Gpio) :
    (http_server_netconn_serve GPIO_LED conn rx g).events =
        [Event.netconn_recv conn rx.err, Event.netconn_close conn, Event.netbuf_delete] ∨
    (http_server_netconn_serve GPIO_LED conn rx g).events =
        [Event.netconn_recv conn rx.err, Event.netbuf_data, Event.netconn_close conn,
         Event.netbuf_delete] ∨
    (http_server_netconn_serve GPIO_LED conn rx g).events =
        [Event.netconn_recv conn rx.err, Event.netbuf_data,
         Event.netconn_write conn (http_index_hml.take (sizeof_http_index_hml - 1))
           NETCONN_NOCOPY,
         Event.netconn_close conn, Event.netbuf_delete] ∨
    (http_server_netconn_serve GPIO_LED conn rx g).events =
        [Event.netconn_recv conn rx.err, Event.netbuf_data,
         Event.netconn_write conn (http_index_hml.take (sizeof_http_index_hml - 1))
           NETCONN_NOCOPY,
         Event.gpio_set_level GPIO_LED 0, Event.netconn_close conn, Event.netbuf_delete] ∨
    (http_server_netconn_serve GPIO_LED conn rx g).events =
        [Event.netconn_recv conn rx.err, Event.netbuf_data,
         Event.netconn_write conn (http_index_hml.take (sizeof_http_index_hml - 1))
           NETCONN_NOCOPY,
         Event.gpio_set_level GPIO_LED 1, Event.netconn_close conn, Event.netbuf_delete] := by
  by_cases herr : rx.err = ERR_OK
  · by_cases h9 : 9 ≤ rx.inbuf.buflen
    · by_cases hget : (matchBytes rx.inbuf getPattern).1 = true
      · by_cases hoff : (matchBytes rx.inbuf offPattern).1 = true
        · simp [http_server_netconn_serve, herr, h9, hget, hoff]
        · by_cases hon : (matchBytes rx.inbuf onPattern).1 = true
          · simp [http_server_netconn_serve, herr, h9, hget, hoff, hon]
          · simp [http_server_netconn_serve, herr, h9, hget, hoff, hon]
      · simp [http_server_netconn_serve, herr, h9, hget]
    · simp [http_server_netconn_serve, herr, h9]
  · simp [http_server_netconn_serve, herr]

/-- C6: whatever the receive returns, the calls of one serve are: one
`netconn_recv` on the connection, then only `netbuf_data`, the page write on
the connection and a GPIO write to the LED pin, then `netconn_close` on the
connection and the release of the buffer; there is one receive and one close
in all. -/
theorem serve_recv_once_close_last (GPIO_LED conn : Nat) (rx : RecvResult) (g : Gpio) :
    (∃ mid : List Event,
      (http_server_netconn_serve GPIO_LED conn rx g).events =
        Event.netconn_recv conn rx.err ::
          (mid ++ [Event.netconn_close conn, Event.netbuf_delete]) ∧
      ∀ e ∈ mid, e = Event.netbuf_data ∨
        e = Event.netconn_write conn (http_index_hml.take (sizeof_http_index_hml - 1))
          NETCONN_NOCOPY ∨
        e = Event.gpio_set_level GPIO_LED 0 ∨ e = Event.gpio_set_level GPIO_LED 1) ∧
    (http_server_netconn_serve GPIO_LED conn rx g).events.countP isRecv = 1 ∧
    (http_server_netconn_serve GPIO_LED conn rx g).events.countP isClose = 1 := by
  rcases serve_events_cases GPIO_LED conn rx g with h | h | h | h | h <;> rw [h]
  · exact ⟨⟨[], rfl, by simp⟩, by simp [isRecv], by simp [isClose]⟩
  · exact ⟨⟨[Event.netbuf_data], rfl, by simp⟩, by simp [isRecv], by simp [isClose]⟩
  · exact ⟨⟨[Event.netbuf_data, Event.netconn_write conn
        (http_index_hml.take (sizeof_http_index_hml - 1)) NETCONN_NOCOPY], rfl, by simp⟩,
      by simp [isRecv], by simp [isClose]⟩
  · exact ⟨⟨[Event.netbuf_data, Event.netconn_write conn
        (http_index_hml.take (sizeof_http_index_hml - 1)) NETCONN_NOCOPY,
        Event.gpio_set_level GPIO_LED 0], rfl, by simp⟩, by simp [isRecv], by simp [isClose]⟩
  · exact ⟨⟨[Event.netbuf_data, Event.netconn_write conn
        (http_index_hml.take (sizeof_http_index_hml - 1)) NETCONN_NOCOPY,
        Event.gpio_set_level GPIO_LED 1], rfl, by simp⟩, by simp [isRecv], by simp [isClose]⟩

/-- The matching only ever reads `buf[0]` to `buf[9]`. -/
theorem serve_reads_le_nine (GPIO_LED conn : Nat) (rx : RecvResult) (g : Gpio) :
    ∀ i ∈ (http_server_netconn_serve GPIO_LED conn rx g).reads, i ≤ 9 := by
  have bound : ∀ (pat : List (Nat × Nat)), (∀ k ∈ pat.map Prod.fst, k ≤ 9) →
      ∀ i ∈ (matchBytes rx.inbuf pat).2, i ≤ 9 :=
    fun pat hpat i hi => hpat i ((matchBytes_reads_initial rx.inbuf pat).subset hi)
  have bg := bound getPattern (by decide)
  have bf := bound offPattern (by decide)
  have bn := bound onPattern (by decide)
  intro i hi
  by_cases herr : rx.err = ERR_OK
  · by_cases h9 : 9 ≤ rx.inbuf.buflen
    · by_cases hget : (matchBytes rx.inbuf getPattern).1 = true
      · by_cases hoff : (matchBytes rx.inbuf offPattern).1 = true
        · simp [http_server_netconn_serve, herr, h9, hget, hoff] at hi
          rcases hi with h | h
          · exact bg i h
          · exact bf i h
        · by_cases hon : (matchBytes rx.inbuf onPattern).1 = true
          · simp [http_server_netconn_serve, herr, h9, hget, hoff, hon] at hi
            rcases hi with h | h | h
            · exact bg i h
            · exact bf i h
            · exact bn i h
          · simp [http_server_netconn_serve, herr, h9, hget, hoff, hon] at hi
            rcases hi with h | h | h
            · exact bg i h
            · exact bf i h
            · exact bn i h
      · simp [http_server_netconn_serve, herr, h9, hget] at hi
        exact bg i hi
    · simp [http_server_netconn_serve, herr, h9] at hi
  · simp [http_server_netconn_serve, herr] at hi

/-- With at least ten bytes received, the matching stays inside the data. -/
theorem serve_reads_in_bounds (GPIO_LED conn : Nat) (rx : RecvResult) (g : Gpio)
    (h10 : 10 ≤ rx.inbuf.buflen) :
    ∀ i ∈ (http_server_netconn_serve GPIO_LED conn rx g).reads, i < rx.inbuf.buflen :=
  fun i hi => Nat.lt_of_le_of_lt (serve_reads_le_nine GPIO_LED conn rx g i hi) h10

/-- C10 fails on the 9-byte buffer `GET /?1=O`: it passes the guard
`buflen>=9`, the first LED test reaches `buf[9]`, and index 9 is not below
`buflen = 9`; the byte found there decides whether the LED is switched. -/
theorem serve_reads_past_nine_byte_buffer :
    (received (bytes "GET /?1=O") (fun _ => 0)).inbuf.buflen = 9 ∧
    (http_server_netconn_serve 2 7 (received (bytes "GET /?1=O") (fun _ => 0))
        (fun _ => 1)).reads = [0, 1, 2, 3, 4, 5, 6, 7, 8, 9, 5, 6] ∧
    ¬ (∀ i ∈ (http_server_netconn_serve 2 7 (received (bytes "GET /?1=O") (fun _ => 0))
        (fun _ => 1)).reads, i < (received (bytes "GET /?1=O") (fun _ => 0)).inbuf.buflen) ∧
    (http_server_netconn_serve 2 7 (received (bytes "GET /?1=O") (fun _ => 0))
        (fun _ => 1)).gpio 2 = 1 ∧
    (http_server_netconn_serve 2 7 (received (bytes "GET /?1=O") (fun _ => 'F'.toNat))
        (fun _ => 1)).gpio 2 = 0 := by
  decide

/-! ## Properties of `http_server` -/

/-- The calls of a serve do not depend on the state of the outputs. -/
theorem serve_events_indep (GPIO_LED conn : Nat) (rx : RecvResult) (g h : Gpio) :
    (http_server_netconn_serve GPIO_LED conn rx g).events =
      (http_server_netconn_serve GPIO_LED conn rx h).events := by
  simp only [http_server_netconn_serve]
  split_ifs <;> rfl

/-- The loop, unfolded along the accept results. -/
theorem http_server_loop_spec (GPIO_LED conn : Nat) (accepts : List AcceptResult) (g0 g : Gpio) :
    (http_server_loop GPIO_LED conn accepts g).events =
        (accepts.takeWhile (fun a => a.err == ERR_OK)).flatMap (fun a =>
          Event.netconn_accept conn ERR_OK ::
            (http_server_netconn_serve GPIO_LED a.newconn.id a.newconn.rx g0).events ++
            [Event.netconn_delete a.newconn.id]) ++
        (match accepts.find? (fun a => a.err != ERR_OK) with
          | some a => [Event.netconn_accept conn a.err]
          | none => []) ∧
      (http_server_loop GPIO_LED conn accepts g).exited =
        (accepts.find? (fun a => a.err != ERR_OK)).isSome ∧
      (http_server_loop GPIO_LED conn accepts g).gpio =
        (accepts.takeWhile (fun a => a.err == ERR_OK)).foldl
          (fun h a => (http_server_netconn_serve GPIO_LED a.newconn.id a.newconn.rx h).gpio) g := by
  induction accepts generalizing g with
  | nil => simp [http_server_loop]
  | cons a rest ih =>
    by_cases ha : a.err = ERR_OK
    · obtain ⟨h1, h2, h3⟩ :=
        ih (http_server_netconn_serve GPIO_LED a.newconn.id a.newconn.rx g).gpio
      have hev := serve_events_indep GPIO_LED a.newconn.id a.newconn.rx g g0
      simp [http_server_loop, ha, h1, h2, h3, hev, List.takeWhile_cons, List.find?_cons]
    · simp [http_server_loop, ha, List.takeWhile_cons, List.find?_cons]

/-- C8: over any sequence of accept results, `http_server` serves exactly the
connections accepted before the first result other than `ERR_OK`, in order,
each one served and deleted before the next accept, whatever happened while
serving; it leaves the loop exactly when there is such a result, and then it
only closes and deletes the listening connection. -/
theorem http_server_serves_until_accept_fails (GPIO_LED conn : Nat)
    (accepts : List AcceptResult) (g : Gpio) :
    (http_server GPIO_LED conn accepts g).events =
        [Event.netconn_new, Event.netconn_bind conn 80, Event.netconn_listen conn] ++
        (accepts.takeWhile (fun a => a.err == ERR_OK)).flatMap (fun a =>
          Event.netconn_accept conn ERR_OK ::
            (http_server_netconn_serve GPIO_LED a.newconn.id a.newconn.rx g).events ++
            [Event.netconn_delete a.newconn.id]) ++
        (match accepts.find? (fun a => a.err != ERR_OK) with
          | some a => [Event.netconn_accept conn a.err, Event.netconn_close conn,
                       Event.netconn_delete conn]
          | none => []) ∧
      ((http_server GPIO_LED conn accepts g).exited = true ↔ ∃ a ∈ accepts, a.err ≠ ERR_OK) ∧
      (http_server GPIO_LED conn accepts g).gpio =
        (accepts.takeWhile (fun a => a.err == ERR_OK)).foldl
          (fun h a => (http_server_netconn_serve GPIO_LED a.newconn.id a.newconn.rx h).gpio) g := by
  obtain ⟨h1, h2, h3⟩ := http_server_loop_spec GPIO_LED conn accepts g g
  refine ⟨?_, ?_, ?_⟩
  · simp only [http_server, h1, h2]
    cases accepts.find? (fun a => a.err != ERR_OK) <;> simp
  · simp [http_server, h2, List.find?_isSome]
  · simp only [http_server, h3]

/-! ## Properties of `event_handler` -/

theorem connected_set (group : Nat) (calls : List WifiCall) :
    connected ⟨xEventGroupSetBits group CONNECTED_BIT, calls⟩ = true := by
  have h := Nat.or_mod_two_eq_one (a := group) (b := 1)
  simp only [connected, xEventGroupSetBits, CONNECTED_BIT, Nat.and_one_is_mod, bne_iff_ne]
  omega

theorem connected_clear (group : Nat) (calls : List WifiCall) :
    connected ⟨xEventGroupClearBits group CONNECTED_BIT, calls⟩ = false := by
  have h : (0xFFFFFFFF ^^^ 1) &&& 1 = 0 := by decide
  simp [connected, xEventGroupClearBits, CONNECTED_BIT, Nat.and_assoc, h]

/-- Delivering one more event after a sequence. -/
theorem deliver_append (events : List system_event_id_t) (e : system_event_id_t)
    (st : WifiState) :
    deliver (events ++ [e]) st = (event_handler e (deliver events st)).2 := by
  simp [deliver, List.foldl_append]

/-- The flag after a sequence of events, from any initial state. -/
theorem connected_deliver (events : List system_event_id_t) (st : WifiState) :
    connected (deliver events st) =
      match lastLinkEvent events with
      | some .SYSTEM_EVENT_STA_GOT_IP => true
      | some _ => false
      | none => connected st := by
  induction events using List.reverseRecOn with
  | nil => simp [deliver, lastLinkEvent]
  | append_singleton es e ih =>
    rw [deliver_append]
    cases e with
    | SYSTEM_EVENT_STA_START =>
      simpa [event_handler, connected, lastLinkEvent, isLinkEvent] using ih
    | SYSTEM_EVENT_STA_GOT_IP =>
      simp [event_handler, connected_set, lastLinkEvent, isLinkEvent]
    | SYSTEM_EVENT_STA_DISCONNECTED =>
      simp [event_handler, connected_clear, lastLinkEvent, isLinkEvent]
    | other id =>
      simpa [event_handler, connected, lastLinkEvent, isLinkEvent] using ih

/-- The reconnect attempts made over a sequence of events. -/
theorem connect_count_deliver (events : List system_event_id_t) (st : WifiState) :
    (deliver events st).calls.count WifiCall.esp_wifi_connect =
      st.calls.count WifiCall.esp_wifi_connect +
      events.count system_event_id_t.SYSTEM_EVENT_STA_DISCONNECTED +
      events.count system_event_id_t.SYSTEM_EVENT_STA_START := by
  induction events using List.reverseRecOn with
  | nil => simp [deliver]
  | append_singleton es e ih =>
    rw [deliver_append]
    cases e <;> simp [event_handler, List.count_append, ih] <;> omega

/-- C9: `SYSTEM_EVENT_STA_DISCONNECTED` makes one `esp_wifi_connect` call and
clears the connected flag; `SYSTEM_EVENT_STA_GOT_IP` sets the flag; the other
events leave it as it was; the handler returns `ESP_OK`; over any sequence of
events every disconnect gets its reconnect attempt, and from the freshly
created event group the flag is set at the end exactly when the most recent
link event was `SYSTEM_EVENT_STA_GOT_IP`. -/
theorem event_handler_link_flag (events : List system_event_id_t) (st : WifiState)
    (e : system_event_id_t) (id : Nat) :
    ((event_handler .SYSTEM_EVENT_STA_DISCONNECTED st).2.calls =
        st.calls ++ [WifiCall.esp_wifi_connect, WifiCall.xEventGroupClearBits CONNECTED_BIT] ∧
      connected (event_handler .SYSTEM_EVENT_STA_DISCONNECTED st).2 = false) ∧
    ((event_handler .SYSTEM_EVENT_STA_GOT_IP st).2.calls =
        st.calls ++ [WifiCall.xEventGroupSetBits CONNECTED_BIT] ∧
      connected (event_handler .SYSTEM_EVENT_STA_GOT_IP st).2 = true) ∧
    ((event_handler .SYSTEM_EVENT_STA_START st).2.calls =
        st.calls ++ [WifiCall.esp_wifi_connect] ∧
      (event_handler .SYSTEM_EVENT_STA_START st).2.wifi_event_group = st.wifi_event_group) ∧
    (event_handler (.other id) st).2 = st ∧
    (event_handler e st).1 = ESP_OK ∧
    (deliver events st).calls.count WifiCall.esp_wifi_connect =
      st.calls.count WifiCall.esp_wifi_connect +
      events.count system_event_id_t.SYSTEM_EVENT_STA_DISCONNECTED +
      events.count system_event_id_t.SYSTEM_EVENT_STA_START ∧
    (connected (deliver events st) =
      match lastLinkEvent events with
      | some .SYSTEM_EVENT_STA_GOT_IP => true
      | some _ => false
      | none => connected st) ∧
    (connected (deliver events wifi_init) = true ↔
      lastLinkEvent events = some .SYSTEM_EVENT_STA_GOT_IP) := by
  refine ⟨⟨rfl, connected_clear _ _⟩, ⟨rfl, connected_set _ _⟩, ⟨rfl, rfl⟩, rfl, ?_,
    connect_count_deliver events st, connected_deliver events st, ?_⟩
  · cases e <;> rfl
  · rw [connected_deliver]
    cases h : lastLinkEvent events with
    | none => simp [connected, wifi_init]
    | some x => cases x <;> simp

end LedBlink

